import Mathlib

/-!
Verification development for the crash-game web scraper repository.

The scraper (`Classe_webscrapper/cls_webscrapper.py`) owns a browser session,
discovers a target URL via an iframe, then polls four DOM text fields and
appends CSV rows for a fixed duration.  The dashboard (`frontend.py`)
supervises the scraper subprocess and tails its log file.

Browser interactions are modelled by their observable outcomes: a page state
gives, for each of the four CSS selectors, whether the element is present and
what its text is; explicit outcome streams stand for the successive DOM
observations of the polling loop, and wall-clock time is modelled in whole
seconds advanced by a positive per-cycle duration.
-/

/-- Python's `s.replace(old, new)` restricted to a single-character pattern,
on the character list of the string: each occurrence of `old` is replaced by
`new` (for a one-character pattern, occurrences are exactly the matching
characters). -/
def replaceCharList (old : Char) (new : List Char) : List Char → List Char
  | [] => []
  | c :: cs => (if c = old then new else [c]) ++ replaceCharList old new cs

/-- Python's `str.replace` with a single-character pattern, as a `String`
operation. -/
def pyReplaceChar (old : Char) (new : String) (s : String) : String :=
  String.mk (replaceCharList old new.toList s.toList)

/-- Helper for `pyStrip`: drop leading whitespace characters. -/
def dropLeadingWs : List Char → List Char
  | [] => []
  | c :: cs => if c.isWhitespace then dropLeadingWs cs else c :: cs

/-- Python's `str.strip()`: remove leading and trailing whitespace. -/
def pyStrip (s : String) : String :=
  String.mk ((dropLeadingWs ((dropLeadingWs s.toList).reverse)).reverse)

/-- Python's substring test `needle in haystack` on character lists. -/
def containsSub (needle : List Char) : List Char → Bool
  | [] => needle.isEmpty
  | c :: cs => needle.isPrefixOf (c :: cs) || containsSub needle cs

/-- State of the scraped page as seen through the four CSS selectors used by
`ImprovedWebScraper.extract_data`: for each selector, `none` means
`driver.find_element` raises `NoSuchElementException`, and `some t` means the
element is present with raw text `t` (before `.strip()`). -/
structure PageState where
  valueX : Option String
  valueBets : Option String
  valuePrize : Option String
  valuePlayers : Option String
deriving DecidableEq

/-- Embedding of `ImprovedWebScraper.extract_data`: the four selectors are
tried in dict-literal order inside one `try`; the first missing element
raises `NoSuchElementException`, which the method itself catches, so the
partially filled dict accumulated so far is returned.  Each stored value is
`element.text.strip()`. -/
def extract_data (p : PageState) : List (String × String) :=
  match p.valueX with
  | none => []
  | some t0 =>
    match p.valueBets with
    | none => [("Value X", pyStrip t0)]
    | some t1 =>
      match p.valuePrize with
      | none => [("Value X", pyStrip t0), ("Value Bets", pyStrip t1)]
      | some t2 =>
        match p.valuePlayers with
        | none => [("Value X", pyStrip t0), ("Value Bets", pyStrip t1), ("Value Prize", pyStrip t2)]
        | some t3 => [("Value X", pyStrip t0), ("Value Bets", pyStrip t1),
            ("Value Prize", pyStrip t2), ("Value Players", pyStrip t3)]

/-- Python dict subscript `data[key]` as a partial lookup (a `KeyError`
becomes `none`). -/
def dictLookup (data : List (String × String)) (key : String) : Option String :=
  match data with
  | [] => none
  | kv :: rest => if kv.1 = key then some kv.2 else dictLookup rest key

/-- Python's `data.get(key, dflt)`. -/
def dictGet (data : List (String × String)) (key : String) (dflt : String) : String :=
  match dictLookup data key with
  | some v => v
  | none => dflt

/-- The four field names in the order of the dict literal in
`extract_data`. -/
def fieldOrder : List String := ["Value X", "Value Bets", "Value Prize", "Value Players"]

/-- Observation made by one iteration of `fetch_data`'s polling loop:
either the 30-second wait for an svg tag times out (a `TimeoutException`
escapes the inner `try`, which only catches `NoSuchElementException`), or a
page state on which `extract_data` runs. -/
inductive CycleObs where
  | svgTimeout
  | page (p : PageState)
deriving DecidableEq

/-- Effect of one loop iteration: a CSV line was written (then `sleep(0.8)`),
the cycle was skipped (empty or absent multiplier, `sleep(3)` then
`continue`), or an exception escaped the loop body (a `TimeoutException`
from the svg wait, or a `KeyError` from subscripting a partial dict), to be
caught by `fetch_data`'s top-level handler. -/
inductive CycleOutcome where
  | wrote (line : String)
  | skip
  | fault
deriving DecidableEq

/-- A write to the output CSV file: the header line or a data row. -/
inductive Event where
  | header
  | row (line : String)
deriving DecidableEq

/-- How the polling loop ended: the `while` condition became false, or an
exception propagated out of the loop body. -/
inductive ExitKind where
  | timeBudget
  | fault
deriving DecidableEq

/-- Body of one iteration of the polling loop in
`ImprovedWebScraper.fetch_data`, given the timestamp `ts` the cycle would
use.  Mirrors: the svg wait, `data = self.extract_data()`, the
`if not data or data.get('Value X', "") == ""` skip, and the f-string
building the row, whose subscripts `data[...]` raise `KeyError` on a partial
dict and whose multiplier part is `data['Value X'].replace('x','')`. -/
def cycleStep (ts : String) (o : CycleObs) : CycleOutcome :=
  match o with
  | CycleObs.svgTimeout => CycleOutcome.fault
  | CycleObs.page p =>
    let data := extract_data p
    if data = [] ∨ dictGet data ("Value X") ("") = "" then CycleOutcome.skip
    else
      match dictLookup data ("Value X"), dictLookup data ("Value Bets"),
          dictLookup data ("Value Prize"), dictLookup data ("Value Players") with
      | some vx, some vb, some vpz, some vpl =>
        CycleOutcome.wrote (ts ++ "," ++ pyReplaceChar 'x' ("") vx ++ "," ++ vb ++ ","
          ++ vpz ++ "," ++ vpl ++ "\n")
      | _, _, _, _ => CycleOutcome.fault

/-- The polling `while` loop of `fetch_data`.  `tsf i` is the timestamp the
`i`-th cycle would write, `obs i` its DOM observation, `ct i` the wall-clock
seconds the `i`-th cycle consumes, `D` the configured duration, and `e` the
seconds elapsed since `self.start_time` when the `while` condition is
checked.  `fuel` bounds the recursion; `none` means the fuel ran out (never
reached once `fuel > D - e` and every cycle consumes at least one second).
Returns the CSV rows written, the elapsed time at exit, and how the loop
ended. -/
def fetchLoopAux (tsf : Nat → String) (obs : Nat → CycleObs) (ct : Nat → Nat) (D : Nat) :
    Nat → Nat → Nat → Option (List Event × Nat × ExitKind)
  | 0, _, _ => none
  | fuel + 1, i, e =>
    if e < D then
      match cycleStep (tsf i) (obs i) with
      | CycleOutcome.fault => some ([], e, ExitKind.fault)
      | CycleOutcome.skip => fetchLoopAux tsf obs ct D fuel (i + 1) (e + ct i)
      | CycleOutcome.wrote line =>
        match fetchLoopAux tsf obs ct D fuel (i + 1) (e + ct i) with
        | none => none
        | some (evs, t, k) => some (Event.row line :: evs, t, k)
    else some ([], e, ExitKind.timeBudget)

/-- Embedding of `ImprovedWebScraper.fetch_data`'s effect on the output
file.  `navOk` records whether `driver.get(url)` and the initial wait
succeed (if not, the top-level handler catches the exception and the file is
never opened).  Otherwise the file is opened, the header line is written
once, and the polling loop appends rows; `e0` is the elapsed time when the
loop is first entered. -/
def fetch_data (navOk : Bool) (tsf : Nat → String) (obs : Nat → CycleObs)
    (ct : Nat → Nat) (D fuel e0 : Nat) : Option (List Event × Nat × ExitKind) :=
  if navOk then
    match fetchLoopAux tsf obs ct D fuel 0 e0 with
    | none => none
    | some (evs, t, k) => some (Event.header :: evs, t, k)
  else none

/-- Follows the spec's words, for comparison with the code: the multiplier
text "has a trailing non-digit unit character stripped before being
written". -/
def specStripTrailingUnit (s : String) : String :=
  match s.toList.getLast? with
  | none => s
  | some c => if c.isDigit then s else String.mk s.toList.dropLast

/-- Outcome of one URL-discovery attempt in
`ImprovedWebScraper.search_for_url`: the wait for the iframe timed out, or
the iframe was found and `get_attribute('src')` returned the given value
(`none` for a missing attribute). -/
inductive AttemptOutcome where
  | timeout
  | found (src : Option String)
deriving DecidableEq

/-- Timeout, in seconds, of the initial iframe wait in `search_for_url`. -/
def initialWaitSeconds : Nat := 30

/-- Timeout, in seconds, of the retry iframe wait in `search_for_url`. -/
def retryWaitSeconds : Nat := 10

/-- Resolution of the iframe `src` attribute: an origin-relative value is
prefixed with the known origin. -/
def resolveIframeSrc (src : String) : String :=
  if src.startsWith ("/") then ("https://1xbet.com") ++ src else src

/-- Result of one attempt: `some url` when a truthy `src` was read (Python
treats `None` and `""` as falsy, both leading to the not-found path),
`none` otherwise. -/
def attemptUrl : AttemptOutcome → Option String
  | AttemptOutcome.timeout => none
  | AttemptOutcome.found none => none
  | AttemptOutcome.found (some s) => if s = "" then none else some (resolveIframeSrc s)

/-- Embedding of `ImprovedWebScraper.search_for_url` over the stream of
attempt outcomes `att`: the initial attempt, then — on timeout, missing
iframe, or falsy `src` — exactly one retry, whose failure raises
`NoSuchElementException`.  Returns the result together with the number of
attempts made. -/
def search_for_url (att : Nat → AttemptOutcome) : Except String String × Nat :=
  match attemptUrl (att 0) with
  | some u => (Except.ok u, 1)
  | none =>
    match attemptUrl (att 1) with
    | some u => (Except.ok u, 2)
    | none => (Except.error ("Could not find crash game URL even after retry."), 2)

/-- Step of `ImprovedWebScraper.start_scraping`, for the action trace of one
call: the URL search, the fetch against the found URL, the error log of the
`except` clause, and the `finally` cleanup. -/
inductive ScrapeAction where
  | searchURL
  | fetchURL (url : String)
  | logScrapeError
  | closeDriver
deriving DecidableEq

/-- Embedding of `ImprovedWebScraper.close_driver`: whatever the driver
state, afterwards no browser session is held (`self.driver = None`; when no
driver was present only a warning is logged). -/
def close_driver : Option Unit → Option Unit := fun _ => none

/-- Embedding of `ImprovedWebScraper.start_scraping` as the action trace of
its `try`/`except`/`finally`: the body searches for the URL and fetches from
it; any exception — a failed URL discovery, or an exception escaping
`fetch_data` — is caught and logged; the `finally` clause always runs
`close_driver`.  `searchRes` is the outcome of `search_for_url` and
`fetchRaises` whether an exception escapes `fetch_data`. -/
def start_scraping (searchRes : Except String String) (fetchRaises : Bool)
    (driver : Option Unit) : List ScrapeAction × Option Unit :=
  let bodyActs :=
    match searchRes with
    | Except.error _ => [ScrapeAction.searchURL, ScrapeAction.logScrapeError]
    | Except.ok url =>
      if fetchRaises then [ScrapeAction.searchURL, ScrapeAction.fetchURL url, ScrapeAction.logScrapeError]
      else [ScrapeAction.searchURL, ScrapeAction.fetchURL url]
  (bodyActs ++ [ScrapeAction.closeDriver], close_driver driver)

/-- The severity marker whose presence in a log line makes the dashboard
stop the scraper (`frontend.py`, `_display_logs`). -/
def errorMarker : String := " - ERROR - "

/-- Python's `" - ERROR - " in line`. -/
def hasErrorMarker (line : String) : Bool :=
  containsSub errorMarker.toList line.toList

/-- Python's `str.lower()` (ASCII case folding suffices for the reasons the
dashboard builds). -/
def pyLower (s : String) : String :=
  String.mk (s.toList.map Char.toLower)

/-- Streamlit session state of `ScraperUI`: the started and error flags and
the child-process handle (`none` when no process was spawned, otherwise
whether `poll()` still returns `None`, i.e. the child is alive). -/
structure UIState where
  scraping_started : Bool
  scraping_error : Bool
  scraping_process : Option Bool
deriving DecidableEq

/-- Embedding of `ScraperUI._stop_scraping`: terminate and wait for the
child if a handle exists and it is alive, clear the started flag, and set
the error flag exactly when the reason contains "error" case-insensitively. -/
def stop_scraping (reason : String) (s : UIState) : UIState :=
  { scraping_started := false,
    scraping_error := containsSub ("error").toList (pyLower reason).toList,
    scraping_process :=
      match s.scraping_process with
      | some true => some false
      | other => other }

/-- Embedding of `ScraperUI._display_logs`: with no log file or an empty
one, only an informational message is shown; otherwise, if any line
contains the error marker, `_stop_scraping` runs with an error reason. -/
def display_logs (logFile : Option (List String)) (s : UIState) : UIState :=
  match logFile with
  | none => s
  | some lines =>
    if lines = [] then s
    else if lines.any hasErrorMarker then
      stop_scraping ("Scraping stopped due to an ERROR in logs.") s
    else s

/-- Embedding of the state effect of `ScraperUI._handle_main_area` on one
refresh tick: when scraping is started and no error is recorded, logs are
displayed (possibly stopping on an error line), and afterwards — the guard
was evaluated before — the elapsed time is compared against the duration
and a non-error completion stop runs when the duration has been reached. -/
def handle_main_area (logFile : Option (List String)) (elapsed D : Nat) (s : UIState) : UIState :=
  if s.scraping_started && !s.scraping_error then
    let s1 := display_logs logFile s
    if D ≤ elapsed then stop_scraping ("Duration reached, scraping completed.") s1 else s1
  else s

/-- The Start control is offered exactly when scraping is neither started
nor in the error state (`_handle_main_area`, first branch). -/
def startOffered (s : UIState) : Bool :=
  !s.scraping_started && !s.scraping_error

/-- Whether the tracked child process is alive. -/
def procAlive (s : UIState) : Bool :=
  s.scraping_process == some true

/-- Civil wall-clock reading (year, month, day, hour, minute, second) of an
instant localized to the Africa/Casablanca timezone. -/
structure CivilTime where
  year : Nat
  month : Nat
  day : Nat
  hour : Nat
  minute : Nat
  second : Nat
deriving DecidableEq

/-- Decimal digit character of `n mod 10`. -/
def digitChar (n : Nat) : Char := Char.ofNat (48 + n % 10)

/-- Zero-padded two-digit decimal rendering, as in strftime fields such as
`%m` and `%S`. -/
def twoDigits (n : Nat) : String :=
  String.mk [digitChar (n / 10), digitChar n]

/-- Zero-padded four-digit decimal rendering, as in strftime `%Y`. -/
def fourDigits (n : Nat) : String :=
  String.mk [digitChar (n / 1000), digitChar (n / 100), digitChar (n / 10), digitChar n]

/-- The strftime format '%Y-%m-%d %H:%M:%S' used by `get_timestamp`. -/
def strfTimestamp (t : CivilTime) : String :=
  fourDigits t.year ++ ("-") ++ twoDigits t.month ++ ("-") ++ twoDigits t.day ++ (" ")
    ++ twoDigits t.hour ++ (":") ++ twoDigits t.minute ++ (":") ++ twoDigits t.second

/-- The strftime format '%Y-%m-%d_%H_%M_%S' used for file names. -/
def strfUnderscore (t : CivilTime) : String :=
  fourDigits t.year ++ ("-") ++ twoDigits t.month ++ ("-") ++ twoDigits t.day ++ ("_")
    ++ twoDigits t.hour ++ ("_") ++ twoDigits t.minute ++ ("_") ++ twoDigits t.second

/-- Embedding of `ImprovedWebScraper.get_timestamp`: render the current
Morocco-localized time; `render` abstracts the timezone-aware conversion of
an instant (epoch seconds) to civil time, and `now` is the instant read. -/
def get_timestamp (render : Nat → CivilTime) (now : Nat) : String :=
  strfTimestamp (render now)

/-- Embedding of `ImprovedWebScraper.get_output_file_name`: the CSV name is
built from the localized start reading — `get_timestamp` output with colons
replaced by underscores — and the end reading at `now + duration` in the
underscore format; `live_prediction` only routes into an alternate
directory tree. -/
def get_output_file_name (render : Nat → CivilTime) (duration : Nat)
    (live_prediction : Bool) (now : Nat) : String :=
  let start_time_str := pyReplaceChar ':' ("_") (get_timestamp render now)
  let end_time_str := strfUnderscore (render (now + duration))
  if live_prediction then
    ("pipeline_ml/live_predictor/live_prediction/data_brute_") ++ start_time_str
      ++ ("_to_") ++ end_time_str ++ (".csv")
  else ("data_brute_") ++ start_time_str ++ ("_to_") ++ end_time_str ++ (".csv")

/-- Embedding of `ImprovedWebScraper.get_log_file_name`: both start and end
readings use the underscore strftime format. -/
def get_log_file_name (render : Nat → CivilTime) (duration : Nat)
    (live_prediction : Bool) (now : Nat) : String :=
  let start_time_str := strfUnderscore (render now)
  let end_time_str := strfUnderscore (render (now + duration))
  if live_prediction then
    ("pipeline_ml/live_predictor/live_prediction/logs/log_") ++ start_time_str
      ++ ("_to_") ++ end_time_str ++ (".txt")
  else ("logs/log_") ++ start_time_str ++ ("_to_") ++ end_time_str ++ (".txt")

/-- C10: extract_data never raises on a missing field element; its result's
keys are a prefix of the ordered field sequence, the first missing element
truncating the dict there. -/
theorem claim_C10 (p : PageState) :
    ∃ n, n ≤ 4 ∧ (extract_data p).map Prod.fst = fieldOrder.take n := by
  rcases p with ⟨vx, vb, vpz, vpl⟩
  cases vx with
  | none => exact ⟨0, by omega, rfl⟩
  | some t0 =>
    cases vb with
    | none => exact ⟨1, by omega, rfl⟩
    | some t1 =>
      cases vpz with
      | none => exact ⟨2, by omega, rfl⟩
      | some t2 =>
        cases vpl with
        | none => exact ⟨3, by omega, rfl⟩
        | some t3 => exact ⟨4, by omega, rfl⟩

/-- Helper: a cycle whose extracted dict is empty or has an empty multiplier
is skipped. -/
theorem cycleStep_skip_of_emptyX (ts : String) (p : PageState)
    (h : dictGet (extract_data p) ("Value X") ("") = "") :
    cycleStep ts (CycleObs.page p) = CycleOutcome.skip := by
  simp only [cycleStep]
  rw [if_pos (Or.inr h)]

/-- Helper: a cycle whose multiplier was extracted non-empty but whose dict
is missing a later field hits a `KeyError` when the row is formatted, which
escapes the loop body. -/
theorem cycleStep_fault_of_partial (ts x : String) (vb vpz vpl : Option String)
    (hxne : pyStrip x ≠ "")
    (hmiss : vb = none ∨ vpz = none ∨ vpl = none) :
    cycleStep ts (CycleObs.page ⟨some x, vb, vpz, vpl⟩) = CycleOutcome.fault := by
  cases vb with
  | none => simp [cycleStep, extract_data, dictGet, dictLookup, hxne]
  | some t1 =>
    cases vpz with
    | none => simp [cycleStep, extract_data, dictGet, dictLookup, hxne]
    | some t2 =>
      cases vpl with
      | none => simp [cycleStep, extract_data, dictGet, dictLookup, hxne]
      | some t3 => rcases hmiss with h | h | h <;> simp at h

/-- Helper: unfolding the loop over a skipped cycle. -/
theorem fetchLoopAux_step_skip (tsf : Nat → String) (obs : Nat → CycleObs)
    (ct : Nat → Nat) (D fuel i e : Nat) (hrun : e < D)
    (h : cycleStep (tsf i) (obs i) = CycleOutcome.skip) :
    fetchLoopAux tsf obs ct D (fuel + 1) i e = fetchLoopAux tsf obs ct D fuel (i + 1) (e + ct i) := by
  rw [fetchLoopAux, if_pos hrun, h]

/-- Helper: unfolding the loop over a faulting cycle. -/
theorem fetchLoopAux_step_fault (tsf : Nat → String) (obs : Nat → CycleObs)
    (ct : Nat → Nat) (D fuel i e : Nat) (hrun : e < D)
    (h : cycleStep (tsf i) (obs i) = CycleOutcome.fault) :
    fetchLoopAux tsf obs ct D (fuel + 1) i e = some ([], e, ExitKind.fault) := by
  rw [fetchLoopAux, if_pos hrun, h]

/-- C7: on every polling cycle whose extracted multiplier field is empty or
absent, no CSV row is appended, no exception escapes the loop body, and the
loop continues with the next cycle after the wait. -/
theorem claim_C7 (tsf : Nat → String) (obs : Nat → CycleObs) (ct : Nat → Nat)
    (D fuel i e : Nat) (p : PageState) (hrun : e < D)
    (hobs : obs i = CycleObs.page p)
    (hempty : dictGet (extract_data p) ("Value X") ("") = "") :
    cycleStep (tsf i) (obs i) = CycleOutcome.skip ∧
    fetchLoopAux tsf obs ct D (fuel + 1) i e = fetchLoopAux tsf obs ct D fuel (i + 1) (e + ct i) := by
  have hskip : cycleStep (tsf i) (obs i) = CycleOutcome.skip := by
    rw [hobs]; exact cycleStep_skip_of_emptyX _ _ hempty
  exact ⟨hskip, fetchLoopAux_step_skip tsf obs ct D fuel i e hrun hskip⟩

/-- Witness for C7 at a concrete cycle with an empty multiplier text. -/
theorem claim_C7_witness :
    cycleStep ("T") (CycleObs.page ⟨some (""), some ("1"), some ("2"), some ("3")⟩)
      = CycleOutcome.skip ∧
    fetchLoopAux (fun _ => ("T"))
        (fun _ => CycleObs.page ⟨some (""), some ("1"), some ("2"), some ("3")⟩)
        (fun _ => 1) 5 3 0 0 =
      fetchLoopAux (fun _ => ("T"))
        (fun _ => CycleObs.page ⟨some (""), some ("1"), some ("2"), some ("3")⟩)
        (fun _ => 1) 5 2 1 1 :=
  claim_C7 (fun _ => ("T"))
    (fun _ => CycleObs.page ⟨some (""), some ("1"), some ("2"), some ("3")⟩)
    (fun _ => 1) 5 2 0 0 ⟨some (""), some ("1"), some ("2"), some ("3")⟩
    (by decide) rfl (by decide)

/-- C1 counterexample: at cycle 0 the multiplier element lookup fails
(`extract_data` returns the empty dict), yet the loop does not stop — it
skips the cycle and cycle 1 runs and writes a row. -/
theorem claim_C1_counterexample :
    extract_data ⟨none, none, none, none⟩ = [] ∧
    fetchLoopAux (fun _ => ("T"))
        (fun i => if i = 0 then CycleObs.page ⟨none, none, none, none⟩
          else CycleObs.page ⟨some ("2.5x"), some ("10"), some ("20"), some ("30")⟩)
        (fun _ => 1) 2 3 0 0 =
      some ([Event.row ("T,2.5,10,20,30\n")], 2, ExitKind.timeBudget) := by
  constructor
  · rfl
  · decide

/-- C1 amended: a failing field-element lookup stops the loop only when it
hits a field after a non-empty multiplier was extracted (the partial dict
then raises `KeyError` in the row f-string, which escapes the loop); when
the multiplier itself is absent or empty, the cycle is skipped and the loop
retries with the next cycle. -/
theorem claim_C1_amended (tsf : Nat → String) (obs : Nat → CycleObs) (ct : Nat → Nat)
    (D fuel i e : Nat) (hrun : e < D) :
    (∀ x vb vpz vpl, obs i = CycleObs.page ⟨some x, vb, vpz, vpl⟩ →
      pyStrip x ≠ "" → (vb = none ∨ vpz = none ∨ vpl = none) →
      fetchLoopAux tsf obs ct D (fuel + 1) i e = some ([], e, ExitKind.fault)) ∧
    (∀ p, obs i = CycleObs.page p →
      dictGet (extract_data p) ("Value X") ("") = "" →
      fetchLoopAux tsf obs ct D (fuel + 1) i e = fetchLoopAux tsf obs ct D fuel (i + 1) (e + ct i)) := by
  constructor
  · intro x vb vpz vpl hobs hxne hmiss
    refine fetchLoopAux_step_fault tsf obs ct D fuel i e hrun ?_
    rw [hobs]
    exact cycleStep_fault_of_partial (tsf i) x vb vpz vpl hxne hmiss
  · intro p hobs hempty
    refine fetchLoopAux_step_skip tsf obs ct D fuel i e hrun ?_
    rw [hobs]
    exact cycleStep_skip_of_emptyX _ _ hempty

/-- Witness for the amended C1 at a concrete page with a non-empty
multiplier and a missing bets element: the loop stops at once. -/
theorem claim_C1_witness :
    fetchLoopAux (fun _ => ("T"))
        (fun _ => CycleObs.page ⟨some ("2.5x"), none, none, none⟩)
        (fun _ => 1) 5 3 0 0 = some ([], 0, ExitKind.fault) :=
  (claim_C1_amended (fun _ => ("T"))
      (fun _ => CycleObs.page ⟨some ("2.5x"), none, none, none⟩)
      (fun _ => 1) 5 2 0 0 (by decide)).1
    ("2.5x") none none none rfl (by decide) (Or.inl rfl)

/-- Helper: when every cycle is skipped, the loop writes nothing, never
faults, terminates within the given fuel, and exits with the elapsed time in
`[D, D + C)` where `C` bounds the cycle durations. -/
theorem fetchLoopAux_allSkip (tsf : Nat → String) (obs : Nat → CycleObs)
    (ct : Nat → Nat) (D C : Nat)
    (hskip : ∀ j, cycleStep (tsf j) (obs j) = CycleOutcome.skip)
    (hpos : ∀ j, 1 ≤ ct j) (hC : ∀ j, ct j ≤ C) :
    ∀ fuel i e, D - e < fuel → e < D + C →
      ∃ e2, fetchLoopAux tsf obs ct D fuel i e = some ([], e2, ExitKind.timeBudget) ∧
        D ≤ e2 ∧ e2 < D + C := by
  intro fuel
  induction fuel with
  | zero => intro i e hf _; omega
  | succ n ih =>
    intro i e hf he
    by_cases hlt : e < D
    · rw [fetchLoopAux_step_skip tsf obs ct D n i e hlt (hskip i)]
      exact ih (i + 1) (e + ct i) (by have := hpos i; omega) (by have := hC i; omega)
    · rw [fetchLoopAux, if_neg hlt]
      exact ⟨e, rfl, by omega, he⟩

/-- C2: for every configured duration `D`, the polling loop terminates
within `D` plus one polling cycle of the session start, even when every
extraction attempt fails (empty or absent multiplier on every cycle): with
cycle durations of at least one and at most `C` seconds, a fuel of `D + 1`
iterations always suffices and the loop exits on the time check with elapsed
time below `D + C`. -/
theorem claim_C2 (tsf : Nat → String) (obs : Nat → CycleObs) (ct : Nat → Nat)
    (D C e0 : Nat) (hpos : ∀ j, 1 ≤ ct j) (hC : ∀ j, ct j ≤ C)
    (hfail : ∀ j, ∃ p, obs j = CycleObs.page p ∧
      dictGet (extract_data p) ("Value X") ("") = "")
    (h0 : e0 ≤ D) :
    ∃ e2, fetchLoopAux tsf obs ct D (D + 1) 0 e0 = some ([], e2, ExitKind.timeBudget) ∧
      D ≤ e2 ∧ e2 < D + C := by
  have hskip : ∀ j, cycleStep (tsf j) (obs j) = CycleOutcome.skip := by
    intro j
    obtain ⟨p, hp, hd⟩ := hfail j
    rw [hp]
    exact cycleStep_skip_of_emptyX _ _ hd
  have hC1 : 1 ≤ C := le_trans (hpos 0) (hC 0)
  exact fetchLoopAux_allSkip tsf obs ct D C hskip hpos hC (D + 1) 0 e0 (by omega) (by omega)

/-- Witness for C2: duration 3, constant cycle time 2, multiplier empty on
every cycle. -/
theorem claim_C2_witness :
    ∃ e2, fetchLoopAux (fun _ => ("T"))
        (fun _ => CycleObs.page ⟨some (""), none, none, none⟩)
        (fun _ => 2) 3 (3 + 1) 0 0 = some ([], e2, ExitKind.timeBudget) ∧
      3 ≤ e2 ∧ e2 < 3 + 2 :=
  claim_C2 (fun _ => ("T"))
    (fun _ => CycleObs.page ⟨some (""), none, none, none⟩)
    (fun _ => 2) 3 2 0 (fun _ => Nat.le_succ 1) (fun _ => Nat.le_refl 2)
    (fun _ => ⟨⟨some (""), none, none, none⟩, rfl, by decide⟩) (by decide)

/-- Helper: the polling loop itself only ever writes data rows, never the
header. -/
theorem fetchLoopAux_no_header (tsf : Nat → String) (obs : Nat → CycleObs)
    (ct : Nat → Nat) (D : Nat) :
    ∀ fuel i e evs t k, fetchLoopAux tsf obs ct D fuel i e = some (evs, t, k) →
      Event.header ∉ evs := by
  intro fuel
  induction fuel with
  | zero =>
    intro i e evs t k h
    simp [fetchLoopAux] at h
  | succ n ih =>
    intro i e evs t k h
    rw [fetchLoopAux] at h
    by_cases hlt : e < D
    · rw [if_pos hlt] at h
      cases hcs : cycleStep (tsf i) (obs i) with
      | fault =>
        rw [hcs] at h
        simp only [Option.some.injEq, Prod.mk.injEq] at h
        rw [← h.1]
        simp
      | skip =>
        rw [hcs] at h
        exact ih (i + 1) (e + ct i) evs t k h
      | wrote line =>
        rw [hcs] at h
        cases hrec : fetchLoopAux tsf obs ct D n (i + 1) (e + ct i) with
        | none => rw [hrec] at h; simp at h
        | some r =>
          obtain ⟨evs2, t2, k2⟩ := r
          rw [hrec] at h
          simp only [Option.some.injEq, Prod.mk.injEq] at h
          rw [← h.1]
          intro hmem
          rcases List.mem_cons.mp hmem with hbad | hxs
          · exact Event.noConfusion hbad
          · exact ih (i + 1) (e + ct i) evs2 t2 k2 hrec hxs
    · rw [if_neg hlt] at h
      simp only [Option.some.injEq, Prod.mk.injEq] at h
      rw [← h.1]
      simp

/-- C6: whenever `fetch_data` creates the output file, the CSV header is its
first written line and is written exactly once, regardless of how many
polling cycles run afterward. -/
theorem claim_C6 (navOk : Bool) (tsf : Nat → String) (obs : Nat → CycleObs)
    (ct : Nat → Nat) (D fuel e0 : Nat) (evs : List Event) (t : Nat) (k : ExitKind)
    (h : fetch_data navOk tsf obs ct D fuel e0 = some (evs, t, k)) :
    ∃ rest, evs = Event.header :: rest ∧ Event.header ∉ rest := by
  unfold fetch_data at h
  cases navOk with
  | false => simp at h
  | true =>
    rw [if_pos rfl] at h
    cases hrec : fetchLoopAux tsf obs ct D fuel 0 e0 with
    | none => rw [hrec] at h; simp at h
    | some r =>
      obtain ⟨evs2, t2, k2⟩ := r
      rw [hrec] at h
      simp only [Option.some.injEq, Prod.mk.injEq] at h
      refine ⟨evs2, h.1.symm ▸ rfl, ?_⟩
      exact fetchLoopAux_no_header tsf obs ct D fuel 0 e0 evs2 t2 k2 hrec

/-- Witness for C6 on a run whose loop exits immediately (duration 0). -/
theorem claim_C6_witness :
    ∃ rest, ([Event.header] : List Event) = Event.header :: rest ∧ Event.header ∉ rest :=
  claim_C6 true (fun _ => ("T")) (fun _ => CycleObs.svgTimeout) (fun _ => 1)
    0 1 0 [Event.header] 0 ExitKind.timeBudget rfl

/-- C3 counterexample: with extracted multiplier text "1.5k" the cycle
writes the multiplier field verbatim (`replace('x','')` touches only the
character 'x'), whereas stripping the trailing non-digit unit character
would give "1.5"; the written row differs from the row the claim
prescribes. -/
theorem claim_C3_counterexample :
    cycleStep ("T") (CycleObs.page ⟨some ("1.5k"), some ("1"), some ("2"), some ("3")⟩)
      = CycleOutcome.wrote ("T,1.5k,1,2,3\n") ∧
    specStripTrailingUnit (pyStrip ("1.5k")) = "1.5" ∧
    ("T,1.5k,1,2,3\n" : String) ≠
      ("T,") ++ specStripTrailingUnit (pyStrip ("1.5k")) ++ (",1,2,3\n") := by
  refine ⟨?_, ?_, ?_⟩ <;> decide

/-- C3 amended: the written multiplier field is the extracted multiplier
text with every occurrence of the character 'x' removed (for texts like
"3.25x" this coincides with stripping the trailing unit), and the other
three fields are copied verbatim; at the concrete values of the claim the
row fields are "3.25", "120", "400", "15". -/
theorem claim_C3_amended (ts x b pz pl : String) (hxne : pyStrip x ≠ "") :
    cycleStep ts (CycleObs.page ⟨some x, some b, some pz, some pl⟩) =
      CycleOutcome.wrote (ts ++ "," ++ pyReplaceChar 'x' ("") (pyStrip x) ++ ","
        ++ pyStrip b ++ "," ++ pyStrip pz ++ "," ++ pyStrip pl ++ "\n") ∧
    cycleStep ts (CycleObs.page ⟨some ("3.25x"), some ("120"), some ("400"), some ("15")⟩) =
      CycleOutcome.wrote (ts ++ ",3.25,120,400,15\n") := by
  constructor
  · simp [cycleStep, extract_data, dictGet, dictLookup, hxne]
  · show CycleOutcome.wrote _ = CycleOutcome.wrote _
    congr 1
    have h1 : pyReplaceChar 'x' ("") (pyStrip ("3.25x")) = "3.25" := by decide
    have h2 : pyStrip ("120") = "120" := by decide
    have h3 : pyStrip ("400") = "400" := by decide
    have h4 : pyStrip ("15") = "15" := by decide
    simp only [h1, h2, h3, h4, String.append_assoc]
    congr 1

/-- Witness for the amended C3 at the concrete values of the claim. -/
theorem claim_C3_witness :
    cycleStep ("T") (CycleObs.page ⟨some ("3.25x"), some ("120"), some ("400"), some ("15")⟩) =
      CycleOutcome.wrote ("T" ++ "," ++ pyReplaceChar 'x' ("") (pyStrip ("3.25x")) ++ ","
        ++ pyStrip ("120") ++ "," ++ pyStrip ("400") ++ "," ++ pyStrip ("15") ++ "\n") :=
  (claim_C3_amended ("T") ("3.25x") ("120") ("400") ("15") (by decide)).1

/-- C4: when the target iframe never appears, `search_for_url` makes exactly
two attempts — the initial one and one retry with a shorter timeout — and
then raises the not-found exception; no third attempt is made. -/
theorem claim_C4 (att : Nat → AttemptOutcome)
    (h : ∀ n, att n = AttemptOutcome.timeout) :
    search_for_url att =
      (Except.error ("Could not find crash game URL even after retry."), 2) ∧
    retryWaitSeconds < initialWaitSeconds := by
  refine ⟨?_, by decide⟩
  unfold search_for_url
  rw [h 0, h 1]
  rfl

/-- Witness for C4 on the constant-timeout attempt stream. -/
theorem claim_C4_witness :
    search_for_url (fun _ => AttemptOutcome.timeout) =
      (Except.error ("Could not find crash game URL even after retry."), 2) ∧
    retryWaitSeconds < initialWaitSeconds :=
  claim_C4 (fun _ => AttemptOutcome.timeout) (fun _ => rfl)

/-- C8: on every exit path of `start_scraping` — normal completion, URL
discovery failure, or an exception during fetching — `close_driver` runs as
the final action exactly once, and afterwards no browser session is held. -/
theorem claim_C8 (searchRes : Except String String) (fetchRaises : Bool)
    (driver : Option Unit) :
    (start_scraping searchRes fetchRaises driver).1.getLast? = some ScrapeAction.closeDriver ∧
    (∃ body, (start_scraping searchRes fetchRaises driver).1 = body ++ [ScrapeAction.closeDriver] ∧
      ScrapeAction.closeDriver ∉ body) ∧
    (start_scraping searchRes fetchRaises driver).2 = none := by
  rcases searchRes with e | url
  · exact ⟨by simp [start_scraping], ⟨_, rfl, by simp⟩, rfl⟩
  · cases fetchRaises
    · exact ⟨by simp [start_scraping], ⟨_, rfl, by simp⟩, rfl⟩
    · exact ⟨by simp [start_scraping], ⟨_, rfl, by simp⟩, rfl⟩

/-- C5 counterexample: on a tick where the log contains an error line but
the configured duration has also elapsed, the later duration-completion
stop clears the error flag again, so the final state is not the terminal
error state and the next refresh offers the Start control. -/
theorem claim_C5_counterexample :
    (["line - INFO - ok", "line - ERROR - boom"].any hasErrorMarker) = true ∧
    (handle_main_area (some (["line - INFO - ok", "line - ERROR - boom"])) 10 10
        ⟨true, false, some true⟩).scraping_error = false ∧
    startOffered (handle_main_area (some (["line - INFO - ok", "line - ERROR - boom"])) 10 10
        ⟨true, false, some true⟩) = true := by
  refine ⟨?_, ?_, ?_⟩ <;> decide

/-- C5 amended: when a line of the log contains the error marker and the
configured duration has not yet elapsed at that tick, the supervisor
terminates the child (if alive) and enters the terminal error state —
started cleared, error set — in which the Start control is not offered and
any subsequent refresh leaves the state unchanged, until an explicit reset
(such as the manual stop) clears the error flag. -/
theorem claim_C5_amended (lines : List String) (elapsed D : Nat) (s : UIState)
    (hstart : s.scraping_started = true) (herr : s.scraping_error = false)
    (hne : lines ≠ []) (hmark : lines.any hasErrorMarker = true) (hdur : elapsed < D) :
    (handle_main_area (some lines) elapsed D s).scraping_error = true ∧
    (handle_main_area (some lines) elapsed D s).scraping_started = false ∧
    procAlive (handle_main_area (some lines) elapsed D s) = false ∧
    startOffered (handle_main_area (some lines) elapsed D s) = false ∧
    (∀ lf el2 D2, handle_main_area lf el2 D2 (handle_main_area (some lines) elapsed D s) =
      handle_main_area (some lines) elapsed D s) := by
  have hguard : (s.scraping_started && !s.scraping_error) = true := by
    rw [hstart, herr]; rfl
  have hs1 : handle_main_area (some lines) elapsed D s =
      stop_scraping ("Scraping stopped due to an ERROR in logs.") s := by
    unfold handle_main_area
    rw [if_pos hguard]
    simp only [display_logs]
    rw [if_neg hne, if_pos hmark, if_neg (Nat.not_le.mpr hdur)]
  have herr2 : containsSub ("error").toList
      (pyLower ("Scraping stopped due to an ERROR in logs.")).toList = true := by decide
  rw [hs1]
  refine ⟨herr2, rfl, ?_, ?_, ?_⟩
  · unfold procAlive stop_scraping
    rcases s.scraping_process with _ | b
    · rfl
    · cases b <;> rfl
  · simp only [startOffered, stop_scraping]
    decide
  · intro lf el2 D2
    unfold handle_main_area
    rw [if_neg]
    simp [stop_scraping]

/-- Witness for the amended C5: error line in the log, duration not yet
elapsed, leads to the terminal error state. -/
theorem claim_C5_witness :
    (handle_main_area (some (["a - ERROR - b"])) 3 10 ⟨true, false, some true⟩).scraping_error
      = true :=
  (claim_C5_amended (["a - ERROR - b"]) 3 10 ⟨true, false, some true⟩ rfl rfl
    (by decide) (by decide) (by decide)).1

/-- Helper: `String.toList` distributes over append. -/
theorem toList_append (a b : String) : (a ++ b).toList = a.toList ++ b.toList := rfl

/-- Helper: a digit character is never a colon. -/
theorem digitChar_ne_colon (n : Nat) : digitChar n ≠ ':' := by
  have h : n % 10 < 10 := Nat.mod_lt n (by decide)
  unfold digitChar
  generalize n % 10 = k at h ⊢
  interval_cases k <;> decide

/-- Helper: two-digit renderings contain no colon. -/
theorem colon_not_mem_twoDigits (n : Nat) : ':' ∉ (twoDigits n).toList := by
  intro hmem
  simp only [twoDigits, String.toList, List.mem_cons, List.not_mem_nil, or_false] at hmem
  rcases hmem with h | h
  · exact digitChar_ne_colon _ h.symm
  · exact digitChar_ne_colon _ h.symm

/-- Helper: four-digit renderings contain no colon. -/
theorem colon_not_mem_fourDigits (n : Nat) : ':' ∉ (fourDigits n).toList := by
  intro hmem
  simp only [fourDigits, String.toList, List.mem_cons, List.not_mem_nil, or_false] at hmem
  rcases hmem with h | h | h | h <;> exact digitChar_ne_colon _ h.symm

/-- Helper: replacing colons by underscores leaves no colon. -/
theorem colon_not_mem_replaceList (s : List Char) :
    ':' ∉ replaceCharList ':' (['_']) s := by
  induction s with
  | nil => simp [replaceCharList]
  | cons c cs ih =>
    simp only [replaceCharList]
    intro hmem
    rcases List.mem_append.mp hmem with h | h
    · by_cases hc : c = ':'
      · rw [if_pos hc] at h
        simp at h
      · rw [if_neg hc] at h
        simp at h
        exact hc h.symm
    · exact ih h

/-- Helper: no colon in the colon-replaced form of any string. -/
theorem colon_not_mem_pyReplace (s : String) :
    ':' ∉ (pyReplaceChar ':' ("_") s).toList := by
  exact colon_not_mem_replaceList s.toList

/-- Helper: appending colon-free strings is colon-free. -/
theorem colon_not_mem_append (a b : String) (ha : ':' ∉ a.toList)
    (hb : ':' ∉ b.toList) : ':' ∉ (a ++ b).toList := by
  rw [toList_append]
  intro h
  rcases List.mem_append.mp h with h | h
  · exact ha h
  · exact hb h

/-- Helper: the underscore strftime rendering contains no colon. -/
theorem colon_not_mem_strfUnderscore (t : CivilTime) :
    ':' ∉ (strfUnderscore t).toList := by
  have hd : ':' ∉ ("-").toList := by decide
  have hu : ':' ∉ ("_").toList := by decide
  simp [strfUnderscore, toList_append, List.mem_append, colon_not_mem_twoDigits,
    colon_not_mem_fourDigits, hd, hu]
  exact ⟨colon_not_mem_fourDigits _, colon_not_mem_twoDigits _, colon_not_mem_twoDigits _,
    colon_not_mem_twoDigits _, colon_not_mem_twoDigits _, colon_not_mem_twoDigits _⟩

/-- C9: the CSV and log file names are derived deterministically from the
localized start reading and the computed end reading at start plus the
configured duration — equal clock readings give equal names — the names
encode both timestamps, and neither name contains a colon: the start part
of the CSV name goes through `replace(':', '_')` and the remaining parts
use the colon-free underscore strftime format. -/
theorem claim_C9 :
    (∀ (render render2 : Nat → CivilTime) (now now2 dur : Nat) (live : Bool),
      render now = render2 now2 → render (now + dur) = render2 (now2 + dur) →
      get_output_file_name render dur live now = get_output_file_name render2 dur live now2 ∧
      get_log_file_name render dur live now = get_log_file_name render2 dur live now2) ∧
    (∀ (render : Nat → CivilTime) (now dur : Nat) (live : Bool),
      get_output_file_name render dur live now =
        (if live then ("pipeline_ml/live_predictor/live_prediction/data_brute_")
          else ("data_brute_"))
          ++ pyReplaceChar ':' ("_") (strfTimestamp (render now)) ++ ("_to_")
          ++ strfUnderscore (render (now + dur)) ++ (".csv") ∧
      get_log_file_name render dur live now =
        (if live then ("pipeline_ml/live_predictor/live_prediction/logs/log_")
          else ("logs/log_"))
          ++ strfUnderscore (render now) ++ ("_to_")
          ++ strfUnderscore (render (now + dur)) ++ (".txt")) ∧
    (∀ (render : Nat → CivilTime) (now dur : Nat) (live : Bool),
      ':' ∉ (get_output_file_name render dur live now).toList ∧
      ':' ∉ (get_log_file_name render dur live now).toList) := by
  refine ⟨?_, ?_, ?_⟩
  · intro render render2 now now2 dur live h1 h2
    constructor
    · simp only [get_output_file_name, get_timestamp, h1, h2]
    · simp only [get_log_file_name, h1, h2]
  · intro render now dur live
    cases live <;> exact ⟨rfl, rfl⟩
  · intro render now dur live
    have hcsv : ':' ∉ (".csv" : String).toList := by decide
    have htxt : ':' ∉ (".txt" : String).toList := by decide
    have hto : ':' ∉ ("_to_" : String).toList := by decide
    have hdb : ':' ∉ ("data_brute_" : String).toList := by decide
    have hdbl : ':' ∉
        ("pipeline_ml/live_predictor/live_prediction/data_brute_" : String).toList := by decide
    have hlg : ':' ∉ ("logs/log_" : String).toList := by decide
    have hlgl : ':' ∉
        ("pipeline_ml/live_predictor/live_prediction/logs/log_" : String).toList := by decide
    cases live with
    | false =>
      constructor
      · show ':' ∉ (("data_brute_") ++ pyReplaceChar ':' ("_") (get_timestamp render now)
          ++ ("_to_") ++ strfUnderscore (render (now + dur)) ++ (".csv")).toList
        exact colon_not_mem_append _ _ (colon_not_mem_append _ _ (colon_not_mem_append _ _
          (colon_not_mem_append _ _ hdb (colon_not_mem_pyReplace _)) hto)
          (colon_not_mem_strfUnderscore _)) hcsv
      · show ':' ∉ (("logs/log_") ++ strfUnderscore (render now)
          ++ ("_to_") ++ strfUnderscore (render (now + dur)) ++ (".txt")).toList
        exact colon_not_mem_append _ _ (colon_not_mem_append _ _ (colon_not_mem_append _ _
          (colon_not_mem_append _ _ hlg (colon_not_mem_strfUnderscore _)) hto)
          (colon_not_mem_strfUnderscore _)) htxt
    | true =>
      constructor
      · show ':' ∉ (("pipeline_ml/live_predictor/live_prediction/data_brute_")
          ++ pyReplaceChar ':' ("_") (get_timestamp render now)
          ++ ("_to_") ++ strfUnderscore (render (now + dur)) ++ (".csv")).toList
        exact colon_not_mem_append _ _ (colon_not_mem_append _ _ (colon_not_mem_append _ _
          (colon_not_mem_append _ _ hdbl (colon_not_mem_pyReplace _)) hto)
          (colon_not_mem_strfUnderscore _)) hcsv
      · show ':' ∉ (("pipeline_ml/live_predictor/live_prediction/logs/log_")
          ++ strfUnderscore (render now)
          ++ ("_to_") ++ strfUnderscore (render (now + dur)) ++ (".txt")).toList
        exact colon_not_mem_append _ _ (colon_not_mem_append _ _ (colon_not_mem_append _ _
          (colon_not_mem_append _ _ hlgl (colon_not_mem_strfUnderscore _)) hto)
          (colon_not_mem_strfUnderscore _)) htxt

/-- Witness for C9: two calls whose clock readings agree — here a constant
localized reading observed at two different instants — produce identical
CSV and log file names. -/
theorem claim_C9_witness :
    get_output_file_name (fun _ => ⟨2024, 1, 2, 3, 4, 5⟩) 60 false 0 =
      get_output_file_name (fun _ => ⟨2024, 1, 2, 3, 4, 5⟩) 60 false 7 ∧
    get_log_file_name (fun _ => ⟨2024, 1, 2, 3, 4, 5⟩) 60 false 0 =
      get_log_file_name (fun _ => ⟨2024, 1, 2, 3, 4, 5⟩) 60 false 7 :=
  claim_C9.1 (fun _ => ⟨2024, 1, 2, 3, 4, 5⟩) (fun _ => ⟨2024, 1, 2, 3, 4, 5⟩)
    0 7 60 false rfl rfl
